import Mathlib

/-!
# WS DOM Controller — formal model

A shallow embedding of the command-dispatch / tab-resolution layer of the
"ws-dom-controller" Chrome extension:

* `extension/offscreen.js` — WebSocket endpoint: parses inbound JSON,
  short-circuits `ping`, forwards everything else to the background
  dispatcher and relays the response.
* `background.js` — tab resolver (`resolveTargetTabId`), navigation handler
  (`handlers.nav` with `waitForTabLoad`), in-page handlers (`click`, `type`,
  `set`, `exists`, `get_html`, `exec_js`, `xpath`) and the
  `chrome.runtime.onMessage` dispatcher.

JS strings that carry page content are modelled as `List Char` (so that
`slice` / length reasoning is elementary); protocol-level strings (ids,
command names, error messages) stay `String`.  Polling loops sampling every
100ms up to `timeout_ms` are modelled by fuel `⌈timeout_ms / 100⌉`, the
page document being a function of the poll iteration (time step).
-/

/-- JSON-ish values, used for handler results and payload fields. -/
inductive JVal where
  | str : String → JVal
  | num : Int → JVal
  | bool : Bool → JVal
  | null : JVal
  | obj : List (String × JVal) → JVal
  | arr : List JVal → JVal

/-- The `id` field of an inbound envelope: a string, a number, `null`,
or absent (`undefined`). -/
inductive IdVal where
  | str : String → IdVal
  | num : Int → IdVal
  | null : IdVal
  | absent : IdVal
deriving Repr, DecidableEq

/-- JS truthiness of an `id` value, as used by `msg.id || crypto.randomUUID()`
in offscreen.js line 34: empty string, 0, null and undefined are falsy. -/
def IdVal.truthy : IdVal → Bool
  | .str s => !(s == "")
  | .num n => !(n == 0)
  | .null => false
  | .absent => false

/-- An outbound envelope written to the WebSocket
(`{id, ok, result}` or `{id, ok, error}`). -/
structure Outbound where
  id : IdVal
  ok : Bool
  result : Option JVal := none
  error : Option String := none

/-- A DOM element as seen by the injected snippets: whether `'value' in el`,
its current value, text content, outer markup and the attributes relevant to
the handlers.  Content strings are `List Char`. -/
structure Elem where
  hasValue : Bool := false
  value : List Char := []
  textContent : List Char := []
  outerHTML : List Char := []
  tag : String := ""
  idAttr : String := ""
  className : String := ""
  attrs : List (String × String) := []
  rectX : Int := 0
  rectY : Int := 0
  rectW : Int := 0
  rectH : Int := 0

/-- A node of an XPath snapshot: an element node, a text node (with its
`nodeValue`), or any other node kind (with its `nodeName`). -/
inductive XNode where
  | element : Elem → XNode
  | textNode : List Char → XNode
  | other : String → XNode

/-- `node.textContent` for a snapshot node (`'' when absent`). -/
def XNode.textContent : XNode → List Char
  | .element el => el.textContent
  | .textNode t => t
  | .other _ => []

/-- The document of one tab.  `qsa k sel` is `document.querySelectorAll(sel)`
at poll iteration `k` (the DOM may change between 100ms samples);
`xeval k xp` is `document.evaluate(xp, …)` as an ordered snapshot at
iteration `k`, `Except.error msg` when evaluation throws (invalid XPath);
`execJs js` is the outcome of evaluating `js` (already serialized),
`Except.error msg` when it throws. -/
structure PageDoc where
  qsa : Nat → String → List Elem
  docHTML : List Char
  xeval : Nat → String → Except String (List XNode)
  execJs : String → Except String JVal

/-- Number of poll iterations of a `while (performance.now() - start < timeout)`
loop that samples every 100ms: iterations happen at elapsed times
0, 100, 200, …, so `⌈timeout / 100⌉` of them satisfy the guard. -/
def pollFuel (timeout_ms : Nat) : Nat := (timeout_ms + 99) / 100

/-- The shared in-page `find(sel, idx, timeout)` poll loop of the `click` and
`type` handlers: at each iteration `k` (starting from `k`, `fuel` iterations
left) re-query the selector; if more than `idx` matches exist return the
`idx`-th, else sleep 100ms and retry; `none` after the timeout. -/
def findPoll (qsa : Nat → String → List Elem) (sel : String) (idx : Nat) :
    Nat → Nat → Option Elem
  | _, 0 => none
  | k, Nat.succ fuel =>
    match (qsa k sel)[idx]? with
    | some el => some el
    | none => findPoll qsa sel idx (k + 1) fuel

/-- The `Element not found: ${selector}[${index}]` message. -/
def elementNotFound (sel : String) (idx : Nat) : String :=
  "Element not found: " ++ sel ++ "[" ++ toString idx ++ "]"

/-- The in-page `click` snippet: poll for the element, then dispatch the
mouse-event sequence and return `{clicked: true}` (the event dispatch has no
observable effect in this model). -/
def clickInPage (page : PageDoc) (sel : String) (idx timeout_ms : Nat) :
    Except String JVal :=
  match findPoll page.qsa sel idx 0 (pollFuel timeout_ms) with
  | none => Except.error (elementNotFound sel idx)
  | some _ => Except.ok (JVal.obj [("clicked", JVal.bool true)])

/-- One character step of the `type` loop: `if ('value' in el) el.value += ch`. -/
def typeStep (el : Elem) (ch : Char) : Elem :=
  if el.hasValue then { el with value := el.value ++ [ch] } else el

/-- The per-character loop of the `type` snippet over the whole text. -/
def typeChars (el : Elem) (text : List Char) : Elem := text.foldl typeStep el

/-- The in-page `type` snippet: poll for the element; on success focus it,
clear its value when `clear` and it has one, append each character of `text`
to its value, and return `{typed: true, length: text.length}` together with
the element's final state. -/
def typeInPage (page : PageDoc) (sel : String) (text : List Char)
    (clear : Bool) (idx timeout_ms : Nat) : Except String (JVal × Elem) :=
  match findPoll page.qsa sel idx 0 (pollFuel timeout_ms) with
  | none => Except.error (elementNotFound sel idx)
  | some el =>
    let el1 := if clear && el.hasValue then { el with value := [] } else el
    let el2 := typeChars el1 text
    Except.ok
      (JVal.obj [("typed", JVal.bool true),
                 ("length", JVal.num (Int.ofNat text.length))], el2)

/-- The in-page `set` snippet: immediate lookup (no polling); mutation of the
attribute / value / text content has no further observable effect here, the
result is `{set: true}` or the not-found error. -/
def setInPage (page : PageDoc) (sel : String) (idx : Nat) :
    Except String JVal :=
  match (page.qsa 0 sel)[idx]? with
  | none => Except.error (elementNotFound sel idx)
  | some _ => Except.ok (JVal.obj [("set", JVal.bool true)])

/-- The in-page `exists` snippet:
`{exists: document.querySelectorAll(sel).length > index}`. -/
def existsInPage (page : PageDoc) (sel : String) (idx : Nat) : JVal :=
  JVal.obj [("exists", JVal.bool (decide (idx < (page.qsa 0 sel).length)))]

/-- The markup `get_html` selects: the source tests `selector ? … : …`, JS
truthiness, so only a present non-empty selector takes the first
`querySelector` match's `outerHTML` (`?? ''`); an absent or empty-string
selector yields `document.documentElement.outerHTML`. -/
def selectedMarkup (page : PageDoc) (selector : Option String) : List Char :=
  match selector with
  | some sel =>
    if sel == "" then page.docHTML
    else
      match (page.qsa 0 sel)[0]? with
      | some el => el.outerHTML
      | none => []
  | none => page.docHTML

/-- The in-page `get_html` snippet: select the markup, truncate it to
`max_len` characters when longer, and report the untruncated length. -/
def get_htmlInPage (page : PageDoc) (selector : Option String)
    (max_len : Nat) : JVal :=
  let html := selectedMarkup page selector
  let truncated := decide (max_len < html.length)
  let out := if truncated then html.take max_len else html
  JVal.obj [("html", JVal.str (String.mk out)),
            ("truncated", JVal.bool truncated),
            ("length", JVal.num (Int.ofNat html.length))]

/-- The in-page `exec_js` snippet: evaluate the expression; wrap a successful
value as `{result: …}`, a thrown error as `exec_js error: ` plus the message. -/
def exec_jsInPage (page : PageDoc) (js : String) : Except String JVal :=
  match page.execJs js with
  | Except.ok v => Except.ok (JVal.obj [("result", v)])
  | Except.error e => Except.error ("exec_js error: " ++ e)

/-! ## XPath handler (in-page `xpath` snippet) -/

/-- `evalSnapshot(xp)`: `document.evaluate` at iteration `k`, rethrowing any
failure as `Invalid XPath: ` plus the message. -/
def evalSnapshot (page : PageDoc) (k : Nat) (xp : String) :
    Except String (List XNode) :=
  match page.xeval k xp with
  | Except.ok ns => Except.ok ns
  | Except.error e => Except.error ("Invalid XPath: " ++ e)

/-- `waitForIndex(xp, idx, timeout)`: while within the timeout (iterations
`k`, `fuel` guard-satisfying iterations left) re-evaluate the snapshot and
return it as soon as it has more than `idx` nodes, sleeping 100ms between
samples; after the timeout evaluate and return one final snapshot. -/
def waitForIndex (page : PageDoc) (xp : String) (idx : Nat) :
    Nat → Nat → Except String (List XNode)
  | k, 0 => evalSnapshot page k xp
  | k, Nat.succ fuel =>
    match evalSnapshot page k xp with
    | Except.error e => Except.error e
    | Except.ok snap =>
      if idx < snap.length then Except.ok snap
      else waitForIndex page xp idx (k + 1) fuel

/-- The actions that target a specific `index` and therefore wait for the
snapshot to contain at least `index + 1` nodes. -/
def needsIndex (action : String) : Bool :=
  ["click", "getAttribute", "getHTML", "getText", "setValue", "type"].contains action

/-- The `xpath` payload after destructuring with its JS defaults applied
(`action = 'list'`, `index = 0`, `timeout_ms = 2000`, `text = ''`,
`clear = true`, `enter = false`, `max = 10`, `includeHTML = false`,
`max_len = 500000`).  `expr` and `attr` keep their absent/present shape
because the handler tests them for truthiness. -/
structure XPayload where
  expr : Option String := none
  action : String := "list"
  index : Nat := 0
  timeout_ms : Nat := 2000
  attr : Option String := none
  text : List Char := []
  clear : Bool := true
  enter : Bool := false
  max : Int := 10
  includeHTML : Bool := false
  max_len : Nat := 500000

/-- `summarizeNode`: element nodes report tag / id / classes / name / value /
bounding rect (plus truncated markup when `includeHTML`), text nodes up to
200 characters of text, other nodes their node name. -/
def summarizeNode (includeHTML : Bool) (max_len : Nat) : XNode → JVal
  | XNode.element el =>
    let htmlTrunc := decide (max_len < el.outerHTML.length)
    JVal.obj
      ([("nodeType", JVal.str "element"),
        ("tag", JVal.str el.tag),
        ("id", if el.idAttr == "" then JVal.null else JVal.str el.idAttr),
        ("classes", if el.className == "" then JVal.null else JVal.str el.className),
        ("name", match el.attrs.lookup "name" with
                 | some v => if v == "" then JVal.null else JVal.str v
                 | none => JVal.null),
        ("value", if el.hasValue then JVal.str (String.mk el.value) else JVal.null),
        ("rect", JVal.obj [("x", JVal.num el.rectX), ("y", JVal.num el.rectY),
                           ("width", JVal.num el.rectW), ("height", JVal.num el.rectH)])]
       ++ (if includeHTML then
            [("html", JVal.str (String.mk (if htmlTrunc then el.outerHTML.take max_len
                                           else el.outerHTML))),
             ("html_truncated", JVal.bool htmlTrunc)]
          else []))
  | XNode.textNode t =>
    JVal.obj [("nodeType", JVal.str "text"), ("text", JVal.str (String.mk (t.take 200)))]
  | XNode.other name =>
    JVal.obj [("nodeType", JVal.str "other"), ("nodeName", JVal.str name)]

/-- The snapshot the `xpath` handler works on: actions that target an index
wait (`waitForIndex`), all others evaluate once, immediately. -/
def xpathSnap (page : PageDoc) (action xp : String) (idx timeout_ms : Nat) :
    Except String (List XNode) :=
  if needsIndex action then waitForIndex page xp idx 0 (pollFuel timeout_ms)
  else evalSnapshot page 0 xp

/-- The switch over `action` once the snapshot is resolved.  `nth(idx)` is
`snap[idx]?`; `ensureElement` fails with `Target is not an element node` on a
missing node or a non-element.  Mutations performed by `click` / `setValue` /
`type` have no further observable effect in this model; the returned result
objects are exactly the source's. -/
def xpathAction (p : XPayload) (snap : List XNode) : Except String JVal :=
  let count := snap.length
  match p.action with
  | "list" =>
    let n := Nat.min count p.max.toNat
    Except.ok (JVal.obj
      [("count", JVal.num (Int.ofNat count)),
       ("nodes", JVal.arr ((snap.take n).map (summarizeNode p.includeHTML p.max_len)))])
  | "exists" => Except.ok (JVal.obj [("exists", JVal.bool (decide (0 < count)))])
  | "count" => Except.ok (JVal.obj [("count", JVal.num (Int.ofNat count))])
  | "click" =>
    match snap[p.index]? with
    | some (XNode.element _) => Except.ok (JVal.obj [("clicked", JVal.bool true)])
    | _ => Except.error "Target is not an element node"
  | "getAttribute" =>
    match p.attr with
    | some a =>
      if a == "" then Except.error "getAttribute requires \"attr\""
      else
        match snap[p.index]? with
        | some (XNode.element el) =>
          Except.ok (JVal.obj [("value", match el.attrs.lookup a with
                                         | some v => JVal.str v
                                         | none => JVal.null)])
        | _ => Except.error "Target is not an element node"
    | none => Except.error "getAttribute requires \"attr\""
  | "getHTML" =>
    match snap[p.index]? with
    | some (XNode.element el) =>
      let truncated := decide (p.max_len < el.outerHTML.length)
      Except.ok (JVal.obj
        [("html", JVal.str (String.mk (if truncated then el.outerHTML.take p.max_len
                                       else el.outerHTML))),
         ("truncated", JVal.bool truncated),
         ("length", JVal.num (Int.ofNat el.outerHTML.length))])
    | _ => Except.error "Target is not an element node"
  | "getText" =>
    match snap[p.index]? with
    | some node =>
      let txt := node.textContent
      Except.ok (JVal.obj [("text", JVal.str (String.mk txt)),
                           ("length", JVal.num (Int.ofNat txt.length))])
    | none => Except.error "No node at index"
  | "setValue" =>
    match snap[p.index]? with
    | some _ => Except.ok (JVal.obj [("set", JVal.bool true)])
    | none => Except.error "No node at index"
  | "type" =>
    match snap[p.index]? with
    | some (XNode.element _) =>
      Except.ok (JVal.obj [("typed", JVal.bool true),
                           ("length", JVal.num (Int.ofNat p.text.length))])
    | _ => Except.error "Target is not an element node"
  | other => Except.error ("Unknown xpath action: " ++ other)

/-- The in-page `xpath` snippet: validate `expr` (absent or empty fails with
`xpath: missing "expr"`), resolve the snapshot (waiting only for the actions
that target an index), then run the action switch. -/
def xpathInPage (page : PageDoc) (p : XPayload) : Except String JVal :=
  match p.expr with
  | none => Except.error "xpath: missing \"expr\""
  | some e =>
    if e == "" then Except.error "xpath: missing \"expr\""
    else
      match xpathSnap page p.action e p.index p.timeout_ms with
      | Except.error err => Except.error err
      | Except.ok snap => xpathAction p snap

/-! ## Browser state, tab resolver, navigation -/

/-- A browser tab as the background script sees it. -/
structure Tab where
  tid : Int
  url : List Char := []
  discarded : Bool := false
deriving Repr, DecidableEq

/-- The browser-side state the background script touches: the session-scoped
`ws_dom_ctrl.lastTabId` slot, the open tabs, the active tab of the
last-focused window (`none` when `chrome.tabs.query` finds none), the id the
next `chrome.tabs.create` will assign, and an oracle telling whether
`waitForTabLoad(tabId)` reaches `status === 'complete'` before its timeout. -/
structure Browser where
  storedTabId : Option Int := none
  tabs : List Tab := []
  activeTabId : Option Int := none
  nextTabId : Int := 1
  loadCompletes : Int → Bool := fun _ => true

/-- `chrome.tabs.get(i)`: the tab with id `i`, if it exists. -/
def Browser.getTab (st : Browser) (i : Int) : Option Tab :=
  st.tabs.find? (fun t => t.tid == i)

/-- `chrome.tabs.create({url, active: true})`: a fresh tab with the next id,
appended to the open tabs and made active. -/
def Browser.createTab (st : Browser) (url : List Char) : Tab × Browser :=
  let t : Tab := { tid := st.nextTabId, url := url }
  (t, { st with tabs := st.tabs ++ [t], nextTabId := st.nextTabId + 1,
                activeTabId := some t.tid })

/-- `chrome.tabs.update(i, {url, active: true})`. -/
def Browser.updateTab (st : Browser) (i : Int) (url : List Char) : Browser :=
  { st with
    tabs := st.tabs.map (fun t => if t.tid == i then { t with url := url } else t),
    activeTabId := some i }

/-- `setStoredTabId`. -/
def setStoredTabId (st : Browser) (i : Int) : Browser :=
  { st with storedTabId := some i }

/-- The fallback half of `resolveTargetTabId`: the active tab of the
last-focused window if its id is truthy (remember it), else a fresh
`about:blank` tab (remember it). -/
def resolveActiveOrCreate (st : Browser) : Int × Browser :=
  match st.activeTabId with
  | some a =>
    if !(a == 0) then (a, setStoredTabId st a)
    else
      let (t, st1) := st.createTab "about:blank".toList
      (t.tid, setStoredTabId st1 t.tid)
  | none =>
    let (t, st1) := st.createTab "about:blank".toList
    (t.tid, setStoredTabId st1 t.tid)

/-- `resolveTargetTabId(preferredId)`: an integer `preferredId` is returned
unchanged; else the stored tab id if that tab still exists and is not
discarded; else `resolveActiveOrCreate`.  `preferredId` arrives as the raw
`payload?.tabId` JSON value (`none` = absent), checked with
`Number.isInteger`. -/
def resolveTargetTabId (preferred : Option JVal) (st : Browser) :
    Int × Browser :=
  match preferred with
  | some (JVal.num k) => (k, st)
  | _ =>
    match st.storedTabId with
    | some sid =>
      match st.getTab sid with
      | some tab => if !tab.discarded then (sid, st) else resolveActiveOrCreate st
      | none => resolveActiveOrCreate st
    | none => resolveActiveOrCreate st

/-- `waitForTabLoad(tabId)`: resolves with the tab once its status is
`complete`, rejects with `Timeout waiting for tab to load` after the timeout
(also when the tab does not exist, since then no update ever fires and every
`chrome.tabs.get` sample throws). -/
def waitForTabLoad (st : Browser) (tabId : Int) : Except String Tab :=
  match st.getTab tabId with
  | some t =>
    if st.loadCompletes tabId then Except.ok t
    else Except.error "Timeout waiting for tab to load"
  | none => Except.error "Timeout waiting for tab to load"

/-- `url || 'about:blank'` — JS falsy default (absent or empty string). -/
def urlOrBlank (url : Option (List Char)) : List Char :=
  match url with
  | some u => if u.isEmpty then "about:blank".toList else u
  | none => "about:blank".toList

/-- The `nav` payload after destructuring (`reuse = true` by default). -/
structure NavPayload where
  url : Option (List Char) := none
  reuse : Bool := true

/-- `handlers.nav`: with `reuse` resolve a target tab and update its url,
else create a fresh tab; remember the tab id; then wait for the load, and on
success report `{tabId, url: tab.url || url || null, ok: true}`.  The updated
browser state is returned on the error path too — the store happens before
the wait. -/
def navHandler (p : NavPayload) (st : Browser) :
    Except String JVal × Browser :=
  let urlStr := urlOrBlank p.url
  let (tabId, st1) :=
    if p.reuse then
      let (t, s) := resolveTargetTabId none st
      (t, s.updateTab t urlStr)
    else
      let (tab, s) := st.createTab urlStr
      (tab.tid, s)
  let st2 := setStoredTabId st1 tabId
  match waitForTabLoad st2 tabId with
  | Except.ok tab =>
    let urlVal :=
      if !tab.url.isEmpty then JVal.str (String.mk tab.url)
      else
        match p.url with
        | some u => if !u.isEmpty then JVal.str (String.mk u) else JVal.null
        | none => JVal.null
    (Except.ok (JVal.obj [("tabId", JVal.num tabId), ("url", urlVal),
                          ("ok", JVal.bool true)]), st2)
  | Except.error e => (Except.error e, st2)

/-- The tab a `nav` command targets (and stores): the resolver's choice when
reusing, the freshly created tab otherwise. -/
def navTargetTab (p : NavPayload) (st : Browser) : Int :=
  if p.reuse then (resolveTargetTabId none st).1 else st.nextTabId

/-! ## Dispatcher (background `chrome.runtime.onMessage` listener) and
offscreen WebSocket endpoint -/

/-- The raw command payload: the whole inbound message object, with the
fields the handlers destructure.  `none` = the field is absent
(`undefined`), so JS destructuring defaults apply.  `raw` carries the
message object's own serializable fields as `JSON.parse` produced them
(`const payload = msg`, offscreen.js line 36); it matters only where an
inherited `Object.prototype` member echoes the object itself. -/
structure Payload where
  tabId : Option JVal := none
  url : Option (List Char) := none
  reuse : Option Bool := none
  selector : Option String := none
  text : Option (List Char) := none
  clear : Option Bool := none
  enter : Option Bool := none
  index : Option Nat := none
  timeout_ms : Option Nat := none
  value : Option (List Char) := none
  attr : Option String := none
  max_len : Option Nat := none
  js : Option String := none
  expr : Option String := none
  action : Option String := none
  max : Option Int := none
  includeHTML : Option Bool := none
  raw : List (String × JVal) := []

/-- The names registered in the `handlers` object, in source order. -/
def handlerNames : List String :=
  ["nav", "click", "type", "set", "exists", "get_html", "exec_js", "xpath"]

/-- The keys `handlers[cmd]` also finds because `handlers` is an object
literal and property lookup walks the prototype chain: the members of
`Object.prototype`.  Every one of these lookups is truthy (a function, or
for `__proto__` the `Object.prototype` object itself). -/
def objectProtoKeys : List String :=
  ["constructor", "hasOwnProperty", "isPrototypeOf", "propertyIsEnumerable",
   "toLocaleString", "toString", "valueOf", "__defineGetter__",
   "__defineSetter__", "__lookupGetter__", "__lookupSetter__", "__proto__"]

/-- JS truthiness of the `handlers[cmd]` lookup (line 486's `!handlers[cmd]`
test): registered handler names and inherited `Object.prototype` members;
everything else is `undefined`, hence falsy. -/
def handlersLookupTruthy (cmd : String) : Bool :=
  handlerNames.contains cmd || objectProtoKeys.contains cmd

/-- The whole observable world: browser state plus the document of each tab. -/
structure World where
  browser : Browser
  pages : Int → PageDoc

/-- The outcome of `await handlers[cmd](payload, tabId)` when `cmd` names an
inherited `Object.prototype` member instead of a registered handler (the
truthiness check passes for these, so the call happens).
`toString` / `toLocaleString` return the string `"[object Object]"`;
`hasOwnProperty` / `isPrototypeOf` / `propertyIsEnumerable` return `false`
(the payload object coerces to the key `"[object Object]"`, never an own
property, and `handlers` is not on the payload's prototype chain);
`valueOf` returns the `handlers` object itself, whose function-valued own
fields do not survive the response serialization, leaving no extra fields;
`constructor` is the `Object` function, which returns its object argument —
the raw message; `__lookupGetter__` / `__lookupSetter__` return `undefined`;
`__proto__` is an accessor yielding the non-callable `Object.prototype`, so
calling it throws a TypeError, and `__defineGetter__` / `__defineSetter__`
throw because their second argument (the tab id) is not a function — none
of these messages names the command.  Any other key is `undefined`: the
dispatcher's falsy check rejects it before any call. -/
def protoCall (cmd : String) (p : Payload) : Except String JVal :=
  match cmd with
  | "toString" => Except.ok (JVal.str "[object Object]")
  | "toLocaleString" => Except.ok (JVal.str "[object Object]")
  | "hasOwnProperty" => Except.ok (JVal.bool false)
  | "isPrototypeOf" => Except.ok (JVal.bool false)
  | "propertyIsEnumerable" => Except.ok (JVal.bool false)
  | "valueOf" => Except.ok (JVal.obj [])
  | "constructor" => Except.ok (JVal.obj p.raw)
  | "__lookupGetter__" => Except.ok JVal.null
  | "__lookupSetter__" => Except.ok JVal.null
  | "__proto__" => Except.error "handlers[cmd] is not a function"
  | "__defineGetter__" => Except.error "Getter must be a function"
  | "__defineSetter__" => Except.error "Setter must be a function"
  | _ => Except.error "handlers[cmd] is not a function"

/-- `handlers[cmd](payload, tabId)` for the non-`nav` commands: run the
injected snippet against the resolved tab's document.  An absent `selector`
or `js` reaches the page as the string `"undefined"` (JS coercion inside
`querySelectorAll` / `new Function`).  `text` has no destructuring default
in the `type` snippet (line 220), so when it is absent the snippet still
polls for the element — and then throws at `for (const ch of text)`.
A key that is no registered handler falls through to the inherited
`Object.prototype` member the lookup found. -/
def runHandler (cmd : String) (p : Payload) (tabId : Int) (w : World) :
    Except String JVal :=
  let page := w.pages tabId
  let sel := p.selector.getD "undefined"
  match cmd with
  | "click" => clickInPage page sel (p.index.getD 0) (p.timeout_ms.getD 2000)
  | "type" =>
    match p.text with
    | some text =>
      (typeInPage page sel text (p.clear.getD true)
        (p.index.getD 0) (p.timeout_ms.getD 2000)).map Prod.fst
    | none =>
      match findPoll page.qsa sel (p.index.getD 0) 0
          (pollFuel (p.timeout_ms.getD 2000)) with
      | none => Except.error (elementNotFound sel (p.index.getD 0))
      | some _ => Except.error "text is not iterable"
  | "set" => setInPage page sel (p.index.getD 0)
  | "exists" => Except.ok (existsInPage page sel (p.index.getD 0))
  | "get_html" => Except.ok (get_htmlInPage page p.selector (p.max_len.getD 500000))
  | "exec_js" => exec_jsInPage page (p.js.getD "undefined")
  | "xpath" =>
    xpathInPage page
      { expr := p.expr, action := p.action.getD "list", index := p.index.getD 0,
        timeout_ms := p.timeout_ms.getD 2000, attr := p.attr,
        text := p.text.getD [], clear := p.clear.getD true,
        enter := p.enter.getD false, max := p.max.getD 10,
        includeHTML := p.includeHTML.getD false,
        max_len := p.max_len.getD 500000 }
  | other => protoCall other p

/-- The enumerable own fields `...res` contributes to `{tabId, ...res}`: an
object spreads its fields, a string its characters under their index keys,
an array its elements under index keys; numbers, booleans, `null` and
`undefined` spread to nothing. -/
def spreadFields : JVal → List (String × JVal)
  | JVal.obj fields => fields
  | JVal.str s =>
    ((List.range s.data.length).zip s.data).map
      (fun ic => (toString ic.1, JVal.str (String.mk [ic.2])))
  | JVal.arr vs =>
    ((List.range vs.length).zip vs).map (fun iv => (toString iv.1, iv.2))
  | _ => []

/-- `{tabId, ...res}` (line 495): `tabId` first, then the handler result's
spread fields, so a same-named later field takes precedence on lookup. -/
def mergeTabId (tabId : Int) (v : JVal) : JVal :=
  JVal.obj (("tabId", JVal.num tabId) :: spreadFields v)

/-- Object field lookup with JS assignment semantics: the last occurrence of
a key wins. -/
def lookupField (fields : List (String × JVal)) (k : String) : Option JVal :=
  (fields.reverse.find? (fun kv => kv.1 == k)).map (fun kv => kv.2)

/-- The background `chrome.runtime.onMessage` listener body for a
`{type: 'cmd', id, cmd, payload}` message: `if (!handlers[cmd])` throws
`Unknown cmd: ${cmd}` (an absent `cmd` prints as `undefined`) — but the
lookup walks the prototype chain, so a cmd naming an inherited
`Object.prototype` member passes the check and gets called; otherwise the
target tab is resolved first, `nav` then resolves its own tab and answers
with its bare result, every other call's result is merged after `tabId`;
any thrown error becomes a `{id, ok: false, error}` response.  The returned
list collects the `sendResponse` calls. -/
def dispatchMessage (id : IdVal) (cmd : Option String) (p : Payload)
    (w : World) : List Outbound × World :=
  let cmdStr := cmd.getD "undefined"
  if !(handlersLookupTruthy cmdStr) then
    ([{ id := id, ok := false, error := some ("Unknown cmd: " ++ cmdStr) }], w)
  else
    let (tabId, br1) := resolveTargetTabId p.tabId w.browser
    let w1 : World := { w with browser := br1 }
    if cmdStr == "nav" then
      match navHandler { url := p.url, reuse := p.reuse.getD true } w1.browser with
      | (Except.ok res, br2) =>
        ([{ id := id, ok := true, result := some res }],
         { w1 with browser := br2 })
      | (Except.error e, br2) =>
        ([{ id := id, ok := false, error := some e }],
         { w1 with browser := br2 })
    else
      match runHandler cmdStr p tabId w1 with
      | Except.ok res =>
        ([{ id := id, ok := true, result := some (mergeTabId tabId res) }], w1)
      | Except.error e =>
        ([{ id := id, ok := false, error := some e }], w1)

/-- An inbound WebSocket message after `JSON.parse`: either the parse threw,
or it yielded an object with an `id`, an optional `cmd`, and the command
fields. -/
inductive Inbound where
  | malformed
  | parsed (id : IdVal) (cmd : Option String) (payload : Payload)

/-- The offscreen `ws.onmessage` handler.  `uuid` is the value
`crypto.randomUUID()` would return for this message; `relayError` is
`chrome.runtime.lastError?.message` when the runtime relay fails before the
dispatcher can answer.  Malformed JSON is answered with `id: null` and
nothing is dispatched; otherwise the reply id is `msg.id || uuid`, `ping` is
answered directly with `pong`, and every other message is forwarded to the
background dispatcher.  The returned list collects the `ws.send` calls. -/
def offscreenOnMessage (inb : Inbound) (uuid : String)
    (relayError : Option String) (w : World) : List Outbound × World :=
  match inb with
  | .malformed =>
    ([{ id := IdVal.null, ok := false, error := some "Invalid JSON received" }], w)
  | .parsed mid cmd p =>
    let id := if mid.truthy then mid else IdVal.str uuid
    if cmd == some "ping" then
      ([{ id := id, ok := true, result := some (JVal.str "pong") }], w)
    else
      match relayError with
      | some e => ([{ id := id, ok := false, error := some e }], w)
      | none => dispatchMessage id cmd p w

/-- A command name the system accepts end to end: the reserved `ping` or a
registered handler name. -/
def validCmd (cmd : Option String) : Bool :=
  cmd == some "ping" || handlerNames.contains (cmd.getD "undefined")

/-- An empty page: no selector matches, empty document, every XPath snapshot
empty, scripts evaluate to `undefined`-ish `null`. -/
def emptyPage : PageDoc :=
  { qsa := fun _ _ => [], docHTML := [],
    xeval := fun _ _ => Except.ok [],
    execJs := fun _ => Except.ok JVal.null }

/-- A minimal concrete world for witnesses: fresh browser, empty pages. -/
def exampleWorld : World :=
  { browser := {}, pages := fun _ => emptyPage }

/-- The stored-tab test of `resolveTargetTabId` as one predicate: an id is
remembered and its tab still exists and is not discarded. -/
def storedUsable (st : Browser) : Bool :=
  match st.storedTabId with
  | some sid =>
    match st.getTab sid with
    | some tab => !tab.discarded
    | none => false
  | none => false

/-! ## Fixtures for concrete witnesses -/

/-- A page whose whole-document markup is the six characters `abcdef`. -/
def fixturePageH : PageDoc := { emptyPage with docHTML := "abcdef".toList }

/-- An input element carrying the value `zz`. -/
def fixtureElem : Elem := { hasValue := true, value := "zz".toList }

/-- A page where selector `#i` matches exactly `fixtureElem`. -/
def fixturePageT : PageDoc :=
  { emptyPage with qsa := fun _ s => if s == "#i" then [fixtureElem] else [] }

/-- A browser remembering tab 5 (which exists), whose next created tab gets
id 7, and in which no tab ever finishes loading. -/
def fixtureNavBrowser : Browser :=
  { storedTabId := some 5, tabs := [{ tid := 5 }], nextTabId := 7,
    loadCompletes := fun _ => false }

/-- A snapshot history that is empty for the first two samples and then
holds one node. -/
def fixtureXNodes : Nat → List XNode :=
  fun i => if 2 ≤ i then [XNode.other "div"] else []

/-- A page whose XPath snapshots follow `fixtureXNodes`. -/
def fixtureXPage : PageDoc :=
  { emptyPage with xeval := fun i _ => Except.ok (fixtureXNodes i) }

/-! ## Theorems -/

/-- C5: `get_html` with `max_len = N` on markup longer than `N` returns a
string of length exactly `N`, `truncated: true`, and the original length;
on markup of length at most `N` it returns the whole markup with
`truncated: false`. -/
theorem get_html_truncation (page : PageDoc) (selector : Option String)
    (N : Nat) (html : List Char) (hsel : selectedMarkup page selector = html) :
    (N < html.length →
      get_htmlInPage page selector N =
        JVal.obj [("html", JVal.str (String.mk (html.take N))),
                  ("truncated", JVal.bool true),
                  ("length", JVal.num (Int.ofNat html.length))]
      ∧ (String.mk (html.take N)).length = N)
    ∧ (html.length ≤ N →
      get_htmlInPage page selector N =
        JVal.obj [("html", JVal.str (String.mk html)),
                  ("truncated", JVal.bool false),
                  ("length", JVal.num (Int.ofNat html.length))]) := by
  subst hsel
  constructor
  · intro h
    constructor
    · simp [get_htmlInPage, h]
    · show (List.take N (selectedMarkup page selector)).length = N
      rw [List.length_take]
      omega
  · intro h
    simp [get_htmlInPage, Nat.not_lt.mpr h]

/-- C5 witness at `max_len = 3` and `max_len = 10` over the 6-character
fixture markup. -/
theorem get_html_truncation_witness :
    (get_htmlInPage fixturePageH none 3 =
      JVal.obj [("html", JVal.str (String.mk ("abcdef".toList.take 3))),
                ("truncated", JVal.bool true),
                ("length", JVal.num (Int.ofNat "abcdef".toList.length))]
      ∧ (String.mk ("abcdef".toList.take 3)).length = 3)
    ∧ get_htmlInPage fixturePageH none 10 =
        JVal.obj [("html", JVal.str (String.mk "abcdef".toList)),
                  ("truncated", JVal.bool false),
                  ("length", JVal.num (Int.ofNat "abcdef".toList.length))] :=
  ⟨(get_html_truncation fixturePageH none 3 "abcdef".toList rfl).1 (by decide),
   (get_html_truncation fixturePageH none 10 "abcdef".toList rfl).2 (by decide)⟩

/-- The `type` per-character loop preserves `'value' in el` and appends the
typed text to the value. -/
theorem typeChars_spec (text : List Char) (el : Elem) (h : el.hasValue = true) :
    (typeChars el text).hasValue = true
    ∧ (typeChars el text).value = el.value ++ text := by
  induction text generalizing el with
  | nil => simp [typeChars, h]
  | cons c cs ih =>
    have hstep : typeStep el c = { el with value := el.value ++ [c] } := by
      simp [typeStep, h]
    have := ih { el with value := el.value ++ [c] } h
    constructor
    · show (typeChars (typeStep el c) cs).hasValue = true
      rw [hstep]; exact this.1
    · show (typeChars (typeStep el c) cs).value = el.value ++ (c :: cs)
      rw [hstep, this.2]; simp

/-- C6: `type` on an element matched within the timeout returns
`{typed: true, length: text.length}` (the number of characters typed), and
when `clear` is true and the element carries a value, its value afterwards
is exactly the typed text — in particular it ends in it. -/
theorem type_result_and_value (page : PageDoc) (sel : String)
    (text : List Char) (idx timeout_ms : Nat) (el : Elem)
    (hfind : findPoll page.qsa sel idx 0 (pollFuel timeout_ms) = some el) :
    ∃ el2,
      typeInPage page sel text true idx timeout_ms =
        Except.ok (JVal.obj [("typed", JVal.bool true),
                             ("length", JVal.num (Int.ofNat text.length))], el2)
      ∧ (el.hasValue = true → el2.value = text ∧ text <:+ el2.value) := by
  unfold typeInPage
  rw [hfind]
  by_cases hv : el.hasValue = true
  · refine ⟨typeChars { el with value := [] } text, ?_, ?_⟩
    · simp [hv]
    · intro _
      have hval : (typeChars { el with value := [] } text).value = text := by
        simpa using (typeChars_spec text { el with value := [] } hv).2
      exact ⟨hval, by rw [hval]⟩
  · simp only [Bool.not_eq_true] at hv
    refine ⟨typeChars el text, ?_, ?_⟩
    · simp [hv]
    · intro h
      simp [h] at hv

/-- C6 witness: typing `abc` into the `#i` input of the fixture page. -/
theorem type_result_and_value_witness :
    ∃ el2,
      typeInPage fixturePageT "#i" "abc".toList true 0 2000 =
        Except.ok (JVal.obj [("typed", JVal.bool true),
                             ("length", JVal.num (Int.ofNat "abc".toList.length))], el2)
      ∧ (fixtureElem.hasValue = true →
          el2.value = "abc".toList ∧ "abc".toList <:+ el2.value) :=
  type_result_and_value fixturePageT "#i" "abc".toList 0 2000 fixtureElem rfl

/-- C3: the tab-resolution order.  (1) An integer `preferredId` is returned
unchanged with no state change (no validation, no remembering).  (2) Else a
remembered tab that still exists undiscarded is returned, unchanged state.
(3) Else a truthy active tab of the last-focused window is remembered and
returned.  (4) Else (no preferred id, unusable remembered tab, no active
tab, and — as Chrome guarantees — no existing tab already carrying the
allocator's next id) a fresh blank tab is created, remembered and returned,
and a follow-up no-argument resolution returns that same tab. -/
theorem resolveTargetTabId_policy (st : Browser) :
    (∀ k : Int, resolveTargetTabId (some (JVal.num k)) st = (k, st))
    ∧ (∀ sid tab, st.storedTabId = some sid → st.getTab sid = some tab →
        tab.discarded = false → resolveTargetTabId none st = (sid, st))
    ∧ (storedUsable st = false → ∀ a, st.activeTabId = some a →
        (a == 0) = false →
        resolveTargetTabId none st = (a, setStoredTabId st a))
    ∧ (storedUsable st = false → st.activeTabId = none →
        st.getTab st.nextTabId = none →
        resolveTargetTabId none st =
          (st.nextTabId,
           setStoredTabId (st.createTab "about:blank".toList).2 st.nextTabId)
        ∧ ((resolveTargetTabId none st).2).storedTabId = some st.nextTabId
        ∧ resolveTargetTabId none ((resolveTargetTabId none st).2) =
            (st.nextTabId, (resolveTargetTabId none st).2)) := by
  have hstored : ∀ (s : Browser) (sid : Int) (tab : Tab),
      s.storedTabId = some sid → s.getTab sid = some tab →
      tab.discarded = false → resolveTargetTabId none s = (sid, s) := by
    intro s sid tab hs hg hd
    simp [resolveTargetTabId, hs, hg, hd]
  have hfall : ∀ h0 : storedUsable st = false,
      resolveTargetTabId none st = resolveActiveOrCreate st := by
    intro h0
    rcases hss : st.storedTabId with _ | sid
    · simp [resolveTargetTabId, hss]
    · rcases hg : st.getTab sid with _ | tab
      · simp [resolveTargetTabId, hss, hg]
      · have hd : tab.discarded = true := by
          simp [storedUsable, hss, hg] at h0; exact h0
        simp [resolveTargetTabId, hss, hg, hd]
  refine ⟨fun k => rfl, fun sid tab hs hg hd => hstored st sid tab hs hg hd, ?_, ?_⟩
  · intro h0 a ha haz
    rw [hfall h0]
    simp [resolveActiveOrCreate, ha, haz]
  · intro h0 ha hfresh
    have hres : resolveTargetTabId none st =
        (st.nextTabId,
         setStoredTabId (st.createTab "about:blank".toList).2 st.nextTabId) := by
      rw [hfall h0]
      simp [resolveActiveOrCreate, ha, Browser.createTab]
    refine ⟨hres, by rw [hres]; rfl, ?_⟩
    rw [hres]
    have hfresh2 : st.tabs.find? (fun t => t.tid == st.nextTabId) = none := hfresh
    have hget : (setStoredTabId (st.createTab "about:blank".toList).2
        st.nextTabId).getTab st.nextTabId =
        some ({ tid := st.nextTabId, url := "about:blank".toList } : Tab) := by
      simp only [setStoredTabId, Browser.createTab, Browser.getTab]
      rw [List.find?_append, hfresh2]
      simp
    exact hstored _ st.nextTabId _ rfl hget rfl

/-- C3 witness: the four resolution paths at concrete states — explicit
override 9 (even though no tab 9 exists), remembered tab 5, active tab 3,
and creation of tab 1 in a fresh browser (which then answers the follow-up
call). -/
theorem resolveTargetTabId_policy_witness :
    resolveTargetTabId (some (JVal.num 9)) fixtureNavBrowser =
      (9, fixtureNavBrowser)
    ∧ resolveTargetTabId none fixtureNavBrowser = (5, fixtureNavBrowser)
    ∧ resolveTargetTabId none { activeTabId := some 3 } =
        (3, setStoredTabId { activeTabId := some 3 } 3)
    ∧ (resolveTargetTabId none ({} : Browser) =
        (({} : Browser).nextTabId,
         setStoredTabId (({} : Browser).createTab "about:blank".toList).2
           ({} : Browser).nextTabId)
       ∧ ((resolveTargetTabId none ({} : Browser)).2).storedTabId =
           some ({} : Browser).nextTabId
       ∧ resolveTargetTabId none ((resolveTargetTabId none ({} : Browser)).2) =
           (({} : Browser).nextTabId, (resolveTargetTabId none ({} : Browser)).2)) :=
  ⟨(resolveTargetTabId_policy fixtureNavBrowser).1 9,
   (resolveTargetTabId_policy fixtureNavBrowser).2.1 5 { tid := 5 } rfl rfl rfl,
   (resolveTargetTabId_policy { activeTabId := some 3 }).2.2.1 rfl 3 rfl rfl,
   (resolveTargetTabId_policy {}).2.2.2 rfl rfl rfl⟩

/-- C2 counterexample: starting from a browser remembering tab 5, a
`nav` with `reuse: false` whose load-wait times out fails — yet the
remembered tab is now 7 (the freshly created tab), not 5 as the claim
requires. -/
theorem nav_timeout_overwrites_stored :
    fixtureNavBrowser.storedTabId = some 5
    ∧ (navHandler { url := some "x".toList, reuse := false }
        fixtureNavBrowser).1 = Except.error "Timeout waiting for tab to load"
    ∧ ((navHandler { url := some "x".toList, reuse := false }
        fixtureNavBrowser).2).storedTabId = some 7 :=
  ⟨rfl, rfl, rfl⟩

/-- C2 amended: `handlers.nav` writes the remembered-tab slot with the
resolved (reuse) or freshly created (no-reuse) target tab id before waiting
for the load, so after every nav — success or load timeout alike — the
remembered tab is the nav target, which may differ from the value the slot
held before the command. -/
theorem nav_stores_target_always (p : NavPayload) (st : Browser) :
    ((navHandler p st).2).storedTabId = some (navTargetTab p st) := by
  unfold navHandler navTargetTab
  by_cases hr : p.reuse
  · rcases hres : resolveTargetTabId none st with ⟨t, s⟩
    simp only [hr, if_true, hres]
    split <;> rfl
  · simp only [hr, if_false, Browser.createTab]
    split <;> rfl

/-- When every snapshot evaluation succeeds, `waitForIndex` returns the
sample of the first in-window iteration with more than `idx` nodes. -/
theorem waitForIndex_first_hit (page : PageDoc) (e : String) (idx : Nat)
    (nodes : Nat → List XNode)
    (hall : ∀ i, page.xeval i e = Except.ok (nodes i)) :
    ∀ fuel k j, j < fuel → idx < (nodes (k + j)).length →
      (∀ i, i < j → ¬ idx < (nodes (k + i)).length) →
      waitForIndex page e idx k fuel = Except.ok (nodes (k + j)) := by
  intro fuel
  induction fuel with
  | zero => intro k j hj; omega
  | succ f ih =>
    intro k j hj hhit hmin
    have heval : evalSnapshot page k e = Except.ok (nodes k) := by
      simp [evalSnapshot, hall k]
    rcases Nat.eq_zero_or_pos j with rfl | hpos
    · simp only [waitForIndex, heval]
      rw [if_pos (by simpa using hhit), Nat.add_zero]
    · have hnk : ¬ idx < (nodes k).length := by
        simpa using hmin 0 hpos
      simp only [waitForIndex, heval]
      rw [if_neg hnk]
      have harg : k + 1 + (j - 1) = k + j := by omega
      have := ih (k + 1) (j - 1) (by omega)
        (by rw [harg]; exact hhit)
        (fun i hi => by
          have hsh : k + 1 + i = k + (i + 1) := by omega
          rw [hsh]; exact hmin (i + 1) (by omega))
      rw [this, harg]

/-- When every snapshot evaluation succeeds and no in-window sample ever has
more than `idx` nodes, `waitForIndex` runs out the timeout and returns the
one final post-timeout evaluation. -/
theorem waitForIndex_timeout (page : PageDoc) (e : String) (idx : Nat)
    (nodes : Nat → List XNode)
    (hall : ∀ i, page.xeval i e = Except.ok (nodes i)) :
    ∀ fuel k, (∀ i, i < fuel → ¬ idx < (nodes (k + i)).length) →
      waitForIndex page e idx k fuel = Except.ok (nodes (k + fuel)) := by
  intro fuel
  induction fuel with
  | zero =>
    intro k _
    simp [waitForIndex, evalSnapshot, hall k]
  | succ f ih =>
    intro k hmiss
    have heval : evalSnapshot page k e = Except.ok (nodes k) := by
      simp [evalSnapshot, hall k]
    have hnk : ¬ idx < (nodes k).length := by simpa using hmiss 0 (by omega)
    simp only [waitForIndex, heval]
    rw [if_neg hnk]
    have harg : k + 1 + f = k + (f + 1) := by omega
    have := ih (k + 1) (fun i hi => by
      have hsh : k + 1 + i = k + (i + 1) := by omega
      rw [hsh]; exact hmiss (i + 1) (by omega))
    rw [this, harg]

/-- C4: the `xpath` action split between one immediate snapshot evaluation
and 100ms polling.  (1) `list`, `exists`, `count` are not index-targeting,
`click`, `getAttribute`, `getHTML`, `getText`, `setValue`, `type` are.
(2) Index-targeting actions resolve their snapshot through `waitForIndex`
over `⌈timeout_ms / 100⌉` in-window samples.  (3) A non-index-targeting
action's whole outcome depends only on the snapshot evaluation at time 0 —
no re-evaluation, no waiting.  (4) In particular `count` on an expression
matching zero nodes returns `{count: 0}` immediately, for every
`timeout_ms`.  (5) `waitForIndex` returns the first in-window sample with
at least `index + 1` nodes, and after a full miss the one final
post-timeout sample. -/
theorem xpath_polling_policy :
    (needsIndex "list" = false ∧ needsIndex "exists" = false
      ∧ needsIndex "count" = false ∧ needsIndex "click" = true
      ∧ needsIndex "getAttribute" = true ∧ needsIndex "getHTML" = true
      ∧ needsIndex "getText" = true ∧ needsIndex "setValue" = true
      ∧ needsIndex "type" = true)
    ∧ (∀ (page : PageDoc) (action e : String) (idx t : Nat),
        needsIndex action = true →
        xpathSnap page action e idx t = waitForIndex page e idx 0 (pollFuel t))
    ∧ (∀ (page1 page2 : PageDoc) (p : XPayload) (e : String),
        p.expr = some e → needsIndex p.action = false →
        page1.xeval 0 e = page2.xeval 0 e →
        xpathInPage page1 p = xpathInPage page2 p)
    ∧ (∀ (page : PageDoc) (p : XPayload) (e : String),
        p.expr = some e → (e == "") = false → p.action = "count" →
        page.xeval 0 e = Except.ok [] →
        xpathInPage page p = Except.ok (JVal.obj [("count", JVal.num 0)]))
    ∧ (∀ (page : PageDoc) (e : String) (idx : Nat) (nodes : Nat → List XNode),
        (∀ i, page.xeval i e = Except.ok (nodes i)) →
        (∀ fuel j, j < fuel → idx < (nodes j).length →
          (∀ i, i < j → ¬ idx < (nodes i).length) →
          waitForIndex page e idx 0 fuel = Except.ok (nodes j))
        ∧ (∀ fuel, (∀ i, i < fuel → ¬ idx < (nodes i).length) →
          waitForIndex page e idx 0 fuel = Except.ok (nodes fuel))) := by
  refine ⟨by constructorm* _ ∧ _ <;> rfl, ?_, ?_, ?_, ?_⟩
  · intro page action e idx t h
    simp [xpathSnap, h]
  · intro page1 page2 p e hexpr hni hx
    simp only [xpathInPage, hexpr]
    by_cases he : (e == "") = true
    · simp [he]
    · rw [Bool.not_eq_true] at he
      rw [he]
      simp only [xpathSnap, hni, Bool.false_eq_true, if_false, evalSnapshot, hx]
  · intro page p e hexpr he ha hx
    simp only [xpathInPage, hexpr, he, Bool.false_eq_true, if_false]
    have hsnap : xpathSnap page p.action e p.index p.timeout_ms =
        Except.ok [] := by
      simp [xpathSnap, ha, needsIndex, evalSnapshot, hx]
    rw [hsnap]
    simp [xpathAction, ha]
  · intro page e idx nodes hall
    exact ⟨fun fuel j hj hhit hmin => by
        simpa using waitForIndex_first_hit page e idx nodes hall fuel 0 j hj
          (by simpa using hhit) (fun i hi => by simpa using hmin i hi),
      fun fuel hmiss => by
        simpa using waitForIndex_timeout page e idx nodes hall fuel 0
          (fun i hi => by simpa using hmiss i hi)⟩

/-- C4 witness: `count` over a snapshot that is empty at time 0 answers
`{count: 0}` for a huge timeout, and `waitForIndex` picks up the snapshot at
iteration 2 of `fixtureXPage`, where nodes first appear. -/
theorem xpath_polling_policy_witness :
    xpathInPage emptyPage
      { expr := some "//div", action := "count", timeout_ms := 12345 } =
      Except.ok (JVal.obj [("count", JVal.num 0)])
    ∧ waitForIndex fixtureXPage "//div" 0 0 5 =
        Except.ok (fixtureXNodes 2) :=
  ⟨xpath_polling_policy.2.2.2.1 emptyPage
      { expr := some "//div", action := "count", timeout_ms := 12345 }
      "//div" rfl rfl rfl rfl,
   (xpath_polling_policy.2.2.2.2 fixtureXPage "//div" 0 fixtureXNodes
      (fun _ => rfl)).1 5 2 (by omega) (by decide)
      (fun i hi => by interval_cases i <;> decide)⟩

/-- Every dispatched message gets exactly one `sendResponse`, carrying the
message's correlation id — on the unknown-command path, the `nav` success
and failure paths, and every other handler's success and failure paths. -/
theorem dispatchMessage_one (id : IdVal) (cmd : Option String) (p : Payload)
    (w : World) :
    ∃ o w1, dispatchMessage id cmd p w = ([o], w1) ∧ o.id = id := by
  simp only [dispatchMessage]
  repeat' split
  all_goals exact ⟨_, _, rfl, rfl⟩

/-- C7: the dispatcher evaluated at the failing input `cmd: "toString"`.
`toString` is not a registered handler name, yet `!handlers[cmd]` is false
(the lookup walks the prototype chain), so instead of the `ok: false`
envelope naming the unknown command that the claim and the spec require,
the inherited `Object.prototype.toString` is called and the reply is
`ok: true` with no error — the result being its `"[object Object]"` string
spread after `tabId`.  A command whose lookup really is falsy
(`frobnicate`) does get the naming error envelope, showing the intended
unknown-command path. -/
theorem proto_cmd_not_rejected :
    handlerNames.contains "toString" = false
    ∧ ((dispatchMessage (IdVal.str "c") (some "toString") {}
        exampleWorld).1.map (fun o => (o.id, o.ok, o.error))) =
      [(IdVal.str "c", true, none)]
    ∧ (dispatchMessage (IdVal.str "c") (some "toString") {}
        exampleWorld).1.map (fun o => o.result) =
      [some (mergeTabId 1 (JVal.str "[object Object]"))]
    ∧ dispatchMessage (IdVal.str "c") (some "frobnicate") {} exampleWorld =
      ([{ id := IdVal.str "c", ok := false,
          error := some ("Unknown cmd: " ++ "frobnicate") }], exampleWorld) :=
  ⟨rfl, rfl, rfl, rfl⟩

/-- If the later fields do not rebind the key, the merged front field is
what lookup finds. -/
theorem lookupField_cons_none (fs : List (String × JVal)) (k : String)
    (v : JVal) (h : lookupField fs k = none) :
    lookupField ((k, v) :: fs) k = some v := by
  unfold lookupField at h ⊢
  rw [List.reverse_cons, List.find?_append]
  have hf : fs.reverse.find? (fun kv => kv.1 == k) = none := by
    cases hf : fs.reverse.find? (fun kv => kv.1 == k) with
    | none => rfl
    | some x => rw [hf] at h; simp at h
  rw [hf]
  simp [List.find?]

/-- A later field with the same key takes precedence over the merged front
field. -/
theorem lookupField_cons_some (fs : List (String × JVal)) (k : String)
    (v v0 : JVal) (h : lookupField fs k = some v0) :
    lookupField ((k, v) :: fs) k = some v0 := by
  unfold lookupField at h ⊢
  rw [List.reverse_cons, List.find?_append]
  obtain ⟨x, hx, hx2⟩ : ∃ x, fs.reverse.find? (fun kv => kv.1 == k) = some x
      ∧ x.2 = v0 := by
    cases hf : fs.reverse.find? (fun kv => kv.1 == k) with
    | none => rw [hf] at h; simp at h
    | some x =>
      rw [hf] at h; simp at h; exact ⟨x, rfl, h⟩
  rw [hx]
  simp [hx2]

/-- C9: a non-`nav` command that succeeds answers with the handler result
merged after a `tabId` field holding the resolver's choice for this command;
lookup finds that `tabId` when the handler result has none of its own, and
the handler's own `tabId` field otherwise (later assignment wins). -/
theorem success_result_carries_tabId (id : IdVal) (c : String) (p : Payload)
    (w : World) (fs : List (String × JVal))
    (hreg : handlerNames.contains c = true) (hnav : (c == "nav") = false)
    (hrun : runHandler c p (resolveTargetTabId p.tabId w.browser).1
        { w with browser := (resolveTargetTabId p.tabId w.browser).2 } =
        Except.ok (JVal.obj fs)) :
    dispatchMessage id (some c) p w =
      ([{ id := id, ok := true,
          result := some (JVal.obj (("tabId",
            JVal.num (resolveTargetTabId p.tabId w.browser).1) :: fs)) }],
       { w with browser := (resolveTargetTabId p.tabId w.browser).2 })
    ∧ (lookupField fs "tabId" = none →
        lookupField (("tabId",
            JVal.num (resolveTargetTabId p.tabId w.browser).1) :: fs) "tabId"
          = some (JVal.num (resolveTargetTabId p.tabId w.browser).1))
    ∧ (∀ v, lookupField fs "tabId" = some v →
        lookupField (("tabId",
            JVal.num (resolveTargetTabId p.tabId w.browser).1) :: fs) "tabId"
          = some v) := by
  refine ⟨?_, fun h => lookupField_cons_none fs "tabId" _ h,
    fun v h => lookupField_cons_some fs "tabId" _ v h⟩
  rcases hres : resolveTargetTabId p.tabId w.browser with ⟨t, br⟩
  rw [hres] at hrun
  have hlt : handlersLookupTruthy c = true := by
    simp only [handlersLookupTruthy, hreg, Bool.true_or]
  simp only [hres]
  simp [dispatchMessage, hres, hlt, hnav, hrun, mergeTabId, spreadFields]

/-- C9 witness: a successful `exists` in a fresh world — the resolver
creates tab 1, and the reply result is `{tabId: 1, exists: false}` with
`tabId` found by lookup. -/
theorem success_result_carries_tabId_witness :
    dispatchMessage (IdVal.str "w9") (some "exists")
        { selector := some "h1" } exampleWorld =
      ([{ id := IdVal.str "w9", ok := true,
          result := some (JVal.obj (("tabId",
            JVal.num (resolveTargetTabId
              ({ selector := some "h1" } : Payload).tabId
              exampleWorld.browser).1) :: [("exists", JVal.bool false)])) }],
       { exampleWorld with browser := (resolveTargetTabId
          ({ selector := some "h1" } : Payload).tabId
          exampleWorld.browser).2 })
    ∧ lookupField (("tabId",
        JVal.num (resolveTargetTabId
          ({ selector := some "h1" } : Payload).tabId
          exampleWorld.browser).1) :: [("exists", JVal.bool false)]) "tabId"
      = some (JVal.num (resolveTargetTabId
          ({ selector := some "h1" } : Payload).tabId
          exampleWorld.browser).1) :=
  ⟨(success_result_carries_tabId (IdVal.str "w9") "exists"
      { selector := some "h1" } exampleWorld [("exists", JVal.bool false)]
      rfl rfl rfl).1,
   (success_result_carries_tabId (IdVal.str "w9") "exists"
      { selector := some "h1" } exampleWorld [("exists", JVal.bool false)]
      rfl rfl rfl).2.1 rfl⟩

/-- Every parsed inbound message yields exactly one `ws.send`, whose id is
the inbound id when truthy and the freshly generated UUID otherwise — on the
`ping` short-circuit, the relay-failure path, and every dispatcher path. -/
theorem offscreen_parsed_reply (mid : IdVal) (cmd : Option String)
    (p : Payload) (uuid : String) (relay : Option String) (w : World) :
    ((offscreenOnMessage (.parsed mid cmd p) uuid relay w).1).length = 1
    ∧ ∀ o ∈ (offscreenOnMessage (.parsed mid cmd p) uuid relay w).1,
        o.id = if mid.truthy then mid else IdVal.str uuid := by
  simp only [offscreenOnMessage]
  by_cases hp : (cmd == some "ping") = true
  · simp [hp]
  · rw [Bool.not_eq_true] at hp
    rw [hp]
    cases relay with
    | some e => simp
    | none =>
      obtain ⟨o, w1, ho, hid⟩ :=
        dispatchMessage_one (if mid.truthy then mid else IdVal.str uuid) cmd p w
      simp [ho, hid]

/-- C1 counterexample: the inbound envelope `{"id": "", "cmd": "ping"}`
parses and its cmd is valid, yet the outbound id is the generated UUID
`u0`, not the inbound id `""` (falsy ids are replaced, offscreen.js line
34). -/
theorem inbound_id_not_echoed :
    validCmd (some "ping") = true
    ∧ (offscreenOnMessage (.parsed (IdVal.str "") (some "ping") {}) "u0"
        none exampleWorld).1 =
      [{ id := IdVal.str "u0", ok := true, result := some (JVal.str "pong") }]
    ∧ IdVal.str "u0" ≠ IdVal.str "" :=
  ⟨rfl, rfl, by decide⟩

/-- C1 amended: for every inbound envelope that parses and carries a valid
cmd, exactly one outbound envelope is produced; its id equals the inbound id
when that id is truthy, and is the freshly generated UUID otherwise. -/
theorem one_reply_with_correlated_id (mid : IdVal) (cmd : Option String)
    (p : Payload) (uuid : String) (relay : Option String) (w : World)
    (_hvalid : validCmd cmd = true) :
    ((offscreenOnMessage (.parsed mid cmd p) uuid relay w).1).length = 1
    ∧ ∀ o ∈ (offscreenOnMessage (.parsed mid cmd p) uuid relay w).1,
        o.id = if mid.truthy then mid else IdVal.str uuid :=
  offscreen_parsed_reply mid cmd p uuid relay w

/-- C1 witness: a truthy inbound id `7` with the valid cmd `ping`. -/
theorem one_reply_with_correlated_id_witness :
    ((offscreenOnMessage (.parsed (IdVal.str "7") (some "ping") {}) "u1"
        none exampleWorld).1).length = 1
    ∧ ∀ o ∈ (offscreenOnMessage (.parsed (IdVal.str "7") (some "ping") {})
        "u1" none exampleWorld).1,
        o.id = if (IdVal.str "7").truthy then IdVal.str "7"
               else IdVal.str "u1" :=
  one_reply_with_correlated_id (IdVal.str "7") (some "ping") {} "u1" none
    exampleWorld (by decide)

/-- C8: a message that fails `JSON.parse` is answered with the single error
envelope `{id: null, ok: false, error: "Invalid JSON received"}` and nothing
is dispatched (the world is untouched); and no reply to any message that did
parse ever carries `id: null`. -/
theorem invalid_json_null_id (uuid : String) (relay : Option String)
    (w : World) :
    offscreenOnMessage .malformed uuid relay w =
      ([{ id := IdVal.null, ok := false,
          error := some "Invalid JSON received" }], w)
    ∧ ∀ (mid : IdVal) (cmd : Option String) (p : Payload),
        ∀ o ∈ (offscreenOnMessage (.parsed mid cmd p) uuid relay w).1,
          o.id ≠ IdVal.null := by
  refine ⟨rfl, ?_⟩
  intro mid cmd p o ho
  have hid := (offscreen_parsed_reply mid cmd p uuid relay w).2 o ho
  rw [hid]
  by_cases ht : mid.truthy = true
  · rw [if_pos ht]
    intro hmn
    rw [hmn] at ht
    simp [IdVal.truthy] at ht
  · rw [if_neg ht]
    intro h
    simp at h

/-- C8 witness: the malformed reply at a concrete world, and the reply to a
parsed `ping` (id `x`) is not `null`. -/
theorem invalid_json_null_id_witness :
    offscreenOnMessage .malformed "u2" none exampleWorld =
      ([{ id := IdVal.null, ok := false,
          error := some "Invalid JSON received" }], exampleWorld)
    ∧ ({ id := IdVal.str "x", ok := true,
         result := some (JVal.str "pong") } : Outbound).id ≠ IdVal.null :=
  ⟨(invalid_json_null_id "u2" none exampleWorld).1,
   (invalid_json_null_id "u2" none exampleWorld).2 (IdVal.str "x")
     (some "ping") {} _ (List.Mem.head _)⟩

/-- C10: when the inbound id is falsy (absent, `null`, `""` or `0`), every
reply carries the freshly generated UUID as id — which differs from the
inbound id even when one was supplied, such as `""`. -/
theorem falsy_id_replaced (mid : IdVal) (cmd : Option String) (p : Payload)
    (uuid : String) (relay : Option String) (w : World)
    (hf : mid.truthy = false) (hu : uuid ≠ "") :
    ∀ o ∈ (offscreenOnMessage (.parsed mid cmd p) uuid relay w).1,
      o.id = IdVal.str uuid ∧ o.id ≠ mid := by
  intro o ho
  have hid := (offscreen_parsed_reply mid cmd p uuid relay w).2 o ho
  rw [hid, if_neg (by simp [hf])]
  refine ⟨rfl, ?_⟩
  intro he
  have htr : (IdVal.str uuid).truthy = true := by simp [IdVal.truthy, hu]
  rw [he, hf] at htr
  exact absurd htr (by decide)

/-- C10 witness: inbound id `""` with generated UUID `u3`: the reply id is
`u3`, not the supplied `""`. -/
theorem falsy_id_replaced_witness :
    ({ id := IdVal.str "u3", ok := true,
       result := some (JVal.str "pong") } : Outbound).id = IdVal.str "u3"
    ∧ ({ id := IdVal.str "u3", ok := true,
         result := some (JVal.str "pong") } : Outbound).id ≠ IdVal.str "" :=
  falsy_id_replaced (IdVal.str "") (some "ping") {} "u3" none exampleWorld
    (by decide) (by decide) _ (List.Mem.head _)
